import Mathlib

/-!
Verification development for the pinocchio escrow program.

The program consists of an entry point (`src/lib.rs`), an instruction tag
enum (`src/instructions/mod.rs`) and three handlers: Make (Create,
`src/instructions/make.rs`), Take (Execute, `src/instructions/take.rs`) and
Refund (Cancel, `src/instructions/refund.rs`).

Modelling conventions:
* Public keys and byte strings are `List Nat` of byte values.
* Machine integers are `Nat` with an explicit `% 2 ^ 64` at the one place the
  source performs an unchecked wrapping add (the manual lamport close).
* Each handler is embedded as a function from a typed record of the accounts
  it destructures (the source's fixed account-array pattern) and the
  instruction payload to `Except ProgramError (state × List Effect)`; the
  returned state is the updated account record and the effect list records
  every cross-program invocation the handler issued, in order.  An error
  carries no state, matching the ledger's all-or-nothing rollback of a failed
  transaction.
* `assert_eq!` / `assert!` / `.unwrap()` panics abort the transaction; they
  are embedded as the distinguished error `ProgramError.AssertionViolation`.
* External collaborators (the token program's Transfer/CloseAccount, the
  system program's CreateAccount, rent, and address derivation) are modelled
  from their documented behaviour; the spec scopes them out as the "Asset
  Transfer Service" and the ledger.  Signature enforcement for invoked
  transfers is the runtime's job and is outside the handler embeddings.
-/

namespace PinocchioEscrow

/-- A public key / address, as its list of byte values. -/
abbrev Pubkey := List Nat

/-- The error values the embedded program can surface.  `AssertionViolation`
stands for a panic raised by `assert!`, `assert_eq!` or `.unwrap()` in the
source, which aborts the enclosing transaction. -/
inductive ProgramError where
  | NotEnoughAccountKeys
  | InvalidInstructionData
  | MissingRequiredSignature
  | AccountAlreadyInitialized
  | InvalidAccountData
  | InsufficientFunds
  | Overflow
  | NonNativeHasBalance
  | OwnerMismatch
  | AssertionViolation
deriving Repr, DecidableEq

/-- Decidable equality for `Except`, so concrete runs of the embedded
handlers can be checked by `decide`. -/
instance {e a : Type} [DecidableEq e] [DecidableEq a] : DecidableEq (Except e a) := fun x y =>
  match x, y with
  | .error e1, .error e2 =>
    if h : e1 = e2 then .isTrue (by rw [h])
    else .isFalse (by intro hc; injection hc; contradiction)
  | .error _, .ok _ => .isFalse (by intro hc; exact Except.noConfusion hc)
  | .ok _, .error _ => .isFalse (by intro hc; exact Except.noConfusion hc)
  | .ok a1, .ok a2 =>
    if h : a1 = a2 then .isTrue (by rw [h])
    else .isFalse (by intro hc; injection hc; contradiction)

/-- 2^64, the bound of the ledger's unsigned 64-bit balances. -/
def U64LIMIT : Nat := 2 ^ 64

/-- This program's own identity (`crate::id()`); the concrete value is
irrelevant, only its distinctness from the other program ids matters. -/
def programId : Pubkey := [240]

/-- The token program's identity (`pinocchio_token::ID`). -/
def tokenProgramId : Pubkey := [241]

/-- The system program's identity. -/
def systemProgramId : Pubkey := [242]

/-- The namespace seed `b"escrow"` (ASCII bytes of "escrow"). -/
def escrowSeedLit : List Nat := [101, 115, 99, 114, 111, 119]

/-- Modelled from the spec (§4.1 Address Derivation): derivation is a pure,
deterministic, collision-free function of the seed tuple and the program id.
A separator-tagged flattening stands in for the hash, and every output is
treated as lying off the curve, so derivation always succeeds (the spec notes
failure is "practically never" for a well-chosen nonce). -/
def createProgramAddress (seeds : List (List Nat)) (pid : Pubkey) : Option Pubkey :=
  some (pid ++ [256] ++ seeds.foldr (fun s acc => s ++ [256] ++ acc) [])

/-- The bump search of `find_program_address`: try bump bytes from high to
low, appending each as an extra seed, and return the first derivation that
succeeds. -/
def findBumpLoop (seeds : List (List Nat)) (pid : Pubkey) : Nat → Option (Pubkey × Nat)
  | 0 => none
  | n + 1 =>
    match createProgramAddress (seeds ++ [[n]]) pid with
    | some a => some (a, n)
    | none => findBumpLoop seeds pid n

/-- `pinocchio::pubkey::find_program_address`: searches bump 255 down to 0,
appending the bump byte to the supplied seeds. -/
def findProgramAddress (seeds : List (List Nat)) (pid : Pubkey) : Pubkey × Nat :=
  (findBumpLoop seeds pid 256).getD ([], 0)

/-- The token-level content of an SPL token account: its balance and its
authority (the token account's `owner` field). -/
structure TokenAccountState where
  amount : Nat
  owner : Pubkey
deriving Repr, DecidableEq

/-- Modelled from the spec: `crate::state::Escrow` (`src/state.rs` is not
under `src/`).  Spec §3/§6: maker identity, mint_x identity, mint_y identity,
8-byte little-endian amount (quantity of asset Y demanded), 1-byte nonce, in
that fixed order; `Escrow::SIZE` is 3·32 + 8 + 1 = 105 bytes. -/
structure Escrow where
  maker : Pubkey
  mint_x : Pubkey
  mint_y : Pubkey
  amount : Nat
  bump : Nat
deriving Repr, DecidableEq, Inhabited

/-- `Escrow::SIZE`. -/
def Escrow.SIZE : Nat := 105

/-- The parsed content of an account's data region. -/
inductive AccountData where
  | empty
  | token (t : TokenAccountState)
  | escrowData (e : Escrow)
  | raw (bytes : List Nat)
deriving Repr, DecidableEq

/-- One entry of the caller-supplied account list: address, signer flag,
owning program, lamport balance and data. -/
structure AccountInfo where
  key : Pubkey
  is_signer : Bool
  owner : Pubkey
  lamports : Nat
  data : AccountData
deriving Repr, DecidableEq

/-- `AccountInfo::data_is_empty`. -/
def AccountInfo.dataIsEmpty (a : AccountInfo) : Bool :=
  match a.data with
  | .empty => true
  | _ => false

/-- Reading a data region as an `Escrow` record; anything that is not an
escrow record reads as an arbitrary (default) record. -/
def Escrow.ofData : AccountData → Escrow
  | .escrowData e => e
  | _ => default

/-- `Escrow::from_account_info`: the source reinterprets the account's bytes
as an `Escrow` without validation. -/
def Escrow.fromAccountInfo (a : AccountInfo) : Escrow :=
  Escrow.ofData a.data

/-- `TokenAccount::from_account_info` (checked): requires the account to be
owned by the token program and to hold token-account data. -/
def tokenAccountFromInfo (a : AccountInfo) : Except ProgramError TokenAccountState :=
  if a.owner ≠ tokenProgramId then .error .InvalidAccountData
  else
    match a.data with
    | .token t => .ok t
    | _ => .error .InvalidAccountData

/-- `TokenAccount::from_account_info_unchecked`: reads the token content
without an owner check. -/
def tokenAccountFromInfoUnchecked (a : AccountInfo) : Option TokenAccountState :=
  match a.data with
  | .token t => some t
  | _ => none

/-- A cross-program invocation issued by a handler, with the PDA signer
seeds it supplied (if any). -/
inductive Effect where
  | transferTok (source dest authority : Pubkey) (amount : Nat)
      (pdaSeeds : Option (List (List Nat)))
  | createAcct (funder fresh : Pubkey) (lamports space : Nat) (newOwner : Pubkey)
      (pdaSeeds : List (List Nat))
  | closeTok (account dest authority : Pubkey) (pdaSeeds : List (List Nat))
deriving Repr, DecidableEq

/-- Whether an effect is an asset (token) transfer. -/
def Effect.isTransfer : Effect → Bool
  | .transferTok _ _ _ _ _ => true
  | _ => false

/-- The asset transfers contained in an effect list, in order. -/
def transfersOf (effs : List Effect) : List Effect :=
  effs.filter Effect.isTransfer

/-- The token program's Transfer (Asset Transfer Service, spec §1): requires
token data on both sides, the source's recorded authority to equal the
supplied authority, a sufficient source balance, and no destination
overflow; debits the source and credits the destination. -/
def tokenTransfer (source dest : AccountInfo) (authority : Pubkey) (amount : Nat) :
    Except ProgramError (AccountInfo × AccountInfo) :=
  match source.data, dest.data with
  | .token s, .token d =>
    if s.owner ≠ authority then .error .OwnerMismatch
    else if s.amount < amount then .error .InsufficientFunds
    else if U64LIMIT ≤ d.amount + amount then .error .Overflow
    else .ok ({ source with data := .token { s with amount := s.amount - amount } },
              { dest with data := .token { d with amount := d.amount + amount } })
  | _, _ => .error .InvalidAccountData

/-- The token program's CloseAccount: requires the closed account's recorded
authority to equal the supplied authority and a zero token balance; moves the
account's entire lamport reserve to the destination and deletes the account —
its data is zeroed and the account is reassigned to the system program (the
deployed SPL Token close semantics, which is what makes a closed account
unusable as a token account afterwards). -/
def tokenCloseAccount (account dest : AccountInfo) (authority : Pubkey) :
    Except ProgramError (AccountInfo × AccountInfo) :=
  match account.data with
  | .token t =>
    if t.owner ≠ authority then .error .OwnerMismatch
    else if t.amount ≠ 0 then .error .NonNativeHasBalance
    else .ok ({ account with lamports := 0, data := .empty, owner := systemProgramId },
              { dest with lamports := (dest.lamports + account.lamports) % U64LIMIT })
  | _ => .error .InvalidAccountData

/-- Little-endian byte-list value (each entry read as a byte). -/
def leBytes : List Nat → Nat
  | [] => 0
  | b :: rest => b % 256 + 256 * leBytes rest

/-- The little-endian u64 read at byte offset `off` of `data`
(the source's raw `*const u64` read on a little-endian machine). -/
def leU64At (data : List Nat) (off : Nat) : Nat :=
  leBytes ((data.drop off).take 8)

/-- Modelled sysvar value: `Rent::get()?.minimum_balance(Escrow::SIZE)`.
The concrete number is irrelevant to every claim. -/
def escrowRentLamports : Nat := 2039280

/-- `EscrowInstructions` (`src/instructions/mod.rs`). -/
inductive EscrowInstructions where
  | Make
  | Take
  | Refund
deriving Repr, DecidableEq

/-- `impl TryFrom<u8> for EscrowInstructions` (`src/instructions/mod.rs`
lines 16–27): tags 0/1/2 map to Make/Take/Refund, everything else is
`InvalidInstructionData`. -/
def EscrowInstructions.tryFrom (value : Nat) : Except ProgramError EscrowInstructions :=
  match value with
  | 0 => .ok .Make
  | 1 => .ok .Take
  | 2 => .ok .Refund
  | _ => .error .InvalidInstructionData

/-- `process_instruction` (`src/lib.rs` lines 14–23), as written: it splits
the first byte off the instruction payload (failing with
`InvalidInstructionData` on an empty payload) and then returns `Ok(())`
without inspecting the tag or invoking any handler.  The result type makes
the absence of routing visible: no handler is called and no effect occurs. -/
def process_instruction (instruction_data : List Nat) : Except ProgramError Unit :=
  match instruction_data with
  | [] => .error .InvalidInstructionData
  | _discriminator :: _data => .ok ()

/-- The accounts destructured by `process_make_instruction`
(`src/instructions/make.rs` lines 40–53), in source order; the two trailing
program accounts are unused by the handler body. -/
structure MakeAccounts where
  maker : AccountInfo
  mint_x : AccountInfo
  mint_y : AccountInfo
  maker_ata : AccountInfo
  vault : AccountInfo
  escrow : AccountInfo
deriving Repr, DecidableEq

/-- The PDA seed tuple `["escrow", maker, [bump]]` shared by all three
handlers for deriving and signing. -/
def makeSignerSeeds (maker : Pubkey) (bump : Nat) : List (List Nat) :=
  [escrowSeedLit, maker, [bump]]

/-- The escrow address the Make handler derives
(`checked_create_program_address(["escrow", maker, [bump]], id)`,
`make.rs` line 65). -/
def makeEscrowAddress (maker : Pubkey) (bump : Nat) : Option Pubkey :=
  createProgramAddress (makeSignerSeeds maker bump) programId

/-- The escrow address the Take handler recomputes
(`find_program_address(["escrow", maker, [record.bump]], id).0`,
`take.rs` lines 66–68).  Note `find_program_address` appends its own bump
byte to the supplied seeds before deriving. -/
def takeEscrowAddress (maker : Pubkey) (bump : Nat) : Pubkey :=
  (findProgramAddress (makeSignerSeeds maker bump) programId).1

/-- `process_make_instruction` (`src/instructions/make.rs`): payload length
check; bump read from payload byte 0; PDA derived and asserted equal to the
escrow account's address; then, only when the escrow slot's data is empty:
mint-owner asserts, vault-authority assert, and either (owner not yet this
program) CreateAccount + field initialization + deposit transfer, or (owner
already this program) `AccountAlreadyInitialized`.  When the slot's data is
non-empty the whole block is skipped and the handler returns success with no
effect. -/
def process_make_instruction (a : MakeAccounts) (data : List Nat) :
    Except ProgramError (MakeAccounts × List Effect) :=
  if data.length < 17 then .error .InvalidInstructionData
  else
    let bump := data.headD 0 % 256
    match makeEscrowAddress a.maker.key bump with
    | none => .error .AssertionViolation
    | some pda =>
      if pda ≠ a.escrow.key then .error .AssertionViolation
      else if a.escrow.dataIsEmpty then
        if a.mint_x.owner ≠ tokenProgramId then .error .AssertionViolation
        else if a.mint_y.owner ≠ tokenProgramId then .error .AssertionViolation
        else
          match tokenAccountFromInfoUnchecked a.vault with
          | none => .error .AssertionViolation
          | some vt =>
            if vt.owner ≠ a.escrow.key then .error .AssertionViolation
            else if a.escrow.owner ≠ programId then
              if a.maker.lamports < escrowRentLamports then .error .InsufficientFunds
              else
                let maker1 : AccountInfo :=
                  { a.maker with lamports := a.maker.lamports - escrowRentLamports }
                let escrow1 : AccountInfo :=
                  { a.escrow with
                    owner := programId
                    lamports := (a.escrow.lamports + escrowRentLamports) % U64LIMIT
                    data := .escrowData
                      { maker := a.maker.key
                        mint_x := a.mint_x.key
                        mint_y := a.mint_y.key
                        amount := leU64At data 1
                        bump := bump } }
                let depositAmount := leU64At data 9
                match tokenTransfer a.maker_ata a.vault a.maker.key depositAmount with
                | .error e => .error e
                | .ok (ata1, vault1) =>
                  .ok ({ a with
                          maker := maker1
                          escrow := escrow1
                          maker_ata := ata1
                          vault := vault1 },
                    [Effect.createAcct a.maker.key a.escrow.key escrowRentLamports
                        Escrow.SIZE programId (makeSignerSeeds a.maker.key bump),
                     Effect.transferTok a.maker_ata.key a.vault.key a.maker.key
                        depositAmount none])
            else .error .AccountAlreadyInitialized
      else .ok (a, [])

/-- The accounts destructured by `process_take_instruction`
(`src/instructions/take.rs` lines 35–51), in source order. -/
structure TakeAccounts where
  taker : AccountInfo
  maker : AccountInfo
  mint_x : AccountInfo
  mint_y : AccountInfo
  taker_ata_x : AccountInfo
  taker_ata_y : AccountInfo
  maker_ata_y : AccountInfo
  vault : AccountInfo
  escrow : AccountInfo
deriving Repr, DecidableEq

/-- `process_take_instruction` (`src/instructions/take.rs`): reads the
escrow record, asserts the supplied mints against it, loads the vault
(checked) recording its pre-execute balance, asserts the escrow account's
address against `find_program_address`'s result, then issues leg 1
(record.amount of Y, taker → maker, taker's authority), leg 2 (the recorded
pre-execute vault balance, vault → taker, escrow PDA authority), closes the
vault to the maker, and manually sweeps the escrow's lamports to the maker
(wrapping 64-bit add; the escrow's data is not zeroed). -/
def process_take_instruction (a : TakeAccounts) :
    Except ProgramError (TakeAccounts × List Effect) :=
  let e := Escrow.fromAccountInfo a.escrow
  if e.mint_x ≠ a.mint_x.key then .error .AssertionViolation
  else if e.mint_y ≠ a.mint_y.key then .error .AssertionViolation
  else
    match tokenAccountFromInfo a.vault with
    | .error err => .error err
    | .ok vaultTok =>
      if a.escrow.key ≠ takeEscrowAddress a.maker.key e.bump then .error .AssertionViolation
      else
        match tokenTransfer a.taker_ata_y a.maker_ata_y a.taker.key e.amount with
        | .error err => .error err
        | .ok (tay1, may1) =>
          match tokenTransfer a.vault a.taker_ata_x a.escrow.key vaultTok.amount with
          | .error err => .error err
          | .ok (vault1, tax1) =>
            match tokenCloseAccount vault1 a.maker a.escrow.key with
            | .error err => .error err
            | .ok (vault2, maker1) =>
              let maker2 : AccountInfo :=
                { maker1 with lamports := (maker1.lamports + a.escrow.lamports) % U64LIMIT }
              let escrow1 : AccountInfo := { a.escrow with lamports := 0 }
              .ok ({ a with
                      taker_ata_y := tay1
                      maker_ata_y := may1
                      taker_ata_x := tax1
                      vault := vault2
                      maker := maker2
                      escrow := escrow1 },
                [Effect.transferTok a.taker_ata_y.key a.maker_ata_y.key a.taker.key
                    e.amount none,
                 Effect.transferTok a.vault.key a.taker_ata_x.key a.escrow.key
                    vaultTok.amount (some (makeSignerSeeds a.maker.key e.bump)),
                 Effect.closeTok a.vault.key a.maker.key a.escrow.key
                    (makeSignerSeeds a.maker.key e.bump)])

/-- The accounts destructured by `process_refund_instruction`
(`src/instructions/refund.rs` lines 30–42), in source order. -/
structure RefundAccounts where
  maker : AccountInfo
  mint_a : AccountInfo
  maker_ata_a : AccountInfo
  escrow : AccountInfo
  vault : AccountInfo
deriving Repr, DecidableEq

/-- `process_refund_instruction` (`src/instructions/refund.rs`): explicit
maker signer check; reads the escrow record and asserts its stored maker and
mint_x against the supplied accounts; loads the vault (checked) and asserts
its authority equals the escrow account's address; transfers the vault's
entire recorded balance to the maker's token account (escrow PDA authority),
closes the vault to the maker, and manually sweeps the escrow's lamports to
the maker (wrapping 64-bit add; the escrow's data is not zeroed).  At no
point is the escrow account's address compared against the derived address;
the seed tuple is used only as signing material for the two invocations. -/
def process_refund_instruction (a : RefundAccounts) :
    Except ProgramError (RefundAccounts × List Effect) :=
  if a.maker.is_signer = false then .error .MissingRequiredSignature
  else
    let e := Escrow.fromAccountInfo a.escrow
    if e.maker ≠ a.maker.key then .error .AssertionViolation
    else if e.mint_x ≠ a.mint_a.key then .error .AssertionViolation
    else
      match tokenAccountFromInfo a.vault with
      | .error err => .error err
      | .ok vaultTok =>
        if vaultTok.owner ≠ a.escrow.key then .error .AssertionViolation
        else
          match tokenTransfer a.vault a.maker_ata_a a.escrow.key vaultTok.amount with
          | .error err => .error err
          | .ok (vault1, ata1) =>
            match tokenCloseAccount vault1 a.maker a.escrow.key with
            | .error err => .error err
            | .ok (vault2, maker1) =>
              let maker2 : AccountInfo :=
                { maker1 with lamports := (maker1.lamports + a.escrow.lamports) % U64LIMIT }
              let escrow1 : AccountInfo := { a.escrow with lamports := 0 }
              .ok ({ a with
                      vault := vault2
                      maker_ata_a := ata1
                      maker := maker2
                      escrow := escrow1 },
                [Effect.transferTok a.vault.key a.maker_ata_a.key a.escrow.key
                    vaultTok.amount (some (makeSignerSeeds a.maker.key e.bump)),
                 Effect.closeTok a.vault.key a.maker.key a.escrow.key
                    (makeSignerSeeds a.maker.key e.bump)])

/-! ### Inversion lemmas for the external-service models -/

theorem tokenAccountFromInfo_ok_elim {a : AccountInfo} {t : TokenAccountState}
    (h : tokenAccountFromInfo a = .ok t) :
    a.owner = tokenProgramId ∧ a.data = .token t := by
  unfold tokenAccountFromInfo at h
  split at h
  · exact absurd h (by simp)
  · split at h <;> simp_all

theorem tokenTransfer_ok_elim {s d : AccountInfo} {auth : Pubkey} {amt : Nat}
    {r : AccountInfo × AccountInfo} (h : tokenTransfer s d auth amt = .ok r) :
    ∃ ts td, s.data = .token ts ∧ d.data = .token td ∧ ts.owner = auth ∧
      amt ≤ ts.amount ∧ td.amount + amt < U64LIMIT ∧
      r = ({ s with data := .token { ts with amount := ts.amount - amt } },
           { d with data := .token { td with amount := td.amount + amt } }) := by
  unfold tokenTransfer at h
  split at h
  case h_1 ts td hs hd =>
    refine ⟨ts, td, hs, hd, ?_⟩
    split at h
    · exact absurd h (by simp)
    · split at h
      · exact absurd h (by simp)
      · split at h
        · exact absurd h (by simp)
        · simp_all
  case h_2 => exact absurd h (by simp)

theorem tokenCloseAccount_ok_elim {acc dst : AccountInfo} {auth : Pubkey}
    {r : AccountInfo × AccountInfo} (h : tokenCloseAccount acc dst auth = .ok r) :
    ∃ t, acc.data = .token t ∧ t.owner = auth ∧ t.amount = 0 ∧
      r = ({ acc with lamports := 0, data := .empty, owner := systemProgramId },
           { dst with lamports := (dst.lamports + acc.lamports) % U64LIMIT }) := by
  unfold tokenCloseAccount at h
  split at h
  case h_1 t ht =>
    refine ⟨t, ht, ?_⟩
    split at h
    · exact absurd h (by simp)
    · split at h
      · exact absurd h (by simp)
      · simp_all
  case h_2 => exact absurd h (by simp)

theorem tokenTransfer_ne_missing_sig (s d : AccountInfo) (auth : Pubkey) (amt : Nat) :
    tokenTransfer s d auth amt ≠ .error .MissingRequiredSignature := by
  unfold tokenTransfer
  split
  · split
    · simp
    · split
      · simp
      · split <;> simp
  · simp

theorem tokenCloseAccount_ne_missing_sig (acc dst : AccountInfo) (auth : Pubkey) :
    tokenCloseAccount acc dst auth ≠ .error .MissingRequiredSignature := by
  unfold tokenCloseAccount
  split
  · split
    · simp
    · split <;> simp
  · simp

theorem tokenAccountFromInfo_ne_missing_sig (a : AccountInfo) :
    tokenAccountFromInfo a ≠ .error .MissingRequiredSignature := by
  unfold tokenAccountFromInfo
  split
  · simp
  · split <;> simp

/-! ### Success-shape lemmas for the handlers -/

/-- Every successful Cancel passed all of the handler's checks, and its
final state and effect list have this explicit form. -/
theorem refund_ok_elim {a s : RefundAccounts} {effs : List Effect}
    (h : process_refund_instruction a = .ok (s, effs)) :
    a.maker.is_signer = true ∧
    ∃ vt d,
      (Escrow.fromAccountInfo a.escrow).maker = a.maker.key ∧
      (Escrow.fromAccountInfo a.escrow).mint_x = a.mint_a.key ∧
      a.vault.owner = tokenProgramId ∧ a.vault.data = .token vt ∧
      vt.owner = a.escrow.key ∧
      a.maker_ata_a.data = .token d ∧
      d.amount + vt.amount < U64LIMIT ∧
      s = { a with
            vault := { a.vault with
                        data := .empty
                        lamports := 0
                        owner := systemProgramId }
            maker_ata_a := { a.maker_ata_a with
                              data := .token { d with amount := d.amount + vt.amount } }
            maker := { a.maker with
                        lamports := ((a.maker.lamports + a.vault.lamports) % U64LIMIT
                          + a.escrow.lamports) % U64LIMIT }
            escrow := { a.escrow with lamports := 0 } } ∧
      effs = [Effect.transferTok a.vault.key a.maker_ata_a.key a.escrow.key vt.amount
                (some (makeSignerSeeds a.maker.key (Escrow.fromAccountInfo a.escrow).bump)),
              Effect.closeTok a.vault.key a.maker.key a.escrow.key
                (makeSignerSeeds a.maker.key (Escrow.fromAccountInfo a.escrow).bump)] := by
  unfold process_refund_instruction at h
  simp only [ne_eq] at h
  split at h
  · exact absurd h (by simp)
  case isFalse hsig =>
  split at h
  case isTrue hmk => exact absurd h (by simp)
  case isFalse hmk =>
  split at h
  case isTrue hmx => exact absurd h (by simp)
  case isFalse hmx =>
  split at h
  case h_1 err heq => exact absurd h (by simp)
  case h_2 vaultTok heq =>
  split at h
  case isTrue hown => exact absurd h (by simp)
  case isFalse hown =>
  split at h
  case h_1 e2 htr => exact absurd h (by simp)
  case h_2 p vault1 ata1 htr =>
  split at h
  case h_1 e3 hcl => exact absurd h (by simp)
  case h_2 q vault2 maker1 hcl =>
  obtain ⟨hvo, hvd⟩ := tokenAccountFromInfo_ok_elim heq
  obtain ⟨ts, td, hts, htd, hauth, hle, hov, hr⟩ := tokenTransfer_ok_elim htr
  rw [hvd] at hts
  obtain rfl : vaultTok = ts := by injection hts
  rw [Prod.mk.injEq] at hr
  obtain ⟨rfl, rfl⟩ := hr
  obtain ⟨t2, ht2, hauth2, hz2, hr2⟩ := tokenCloseAccount_ok_elim hcl
  rw [Prod.mk.injEq] at hr2
  obtain ⟨rfl, rfl⟩ := hr2
  rw [Except.ok.injEq, Prod.mk.injEq] at h
  obtain ⟨hs, he⟩ := h
  exact ⟨by simpa using hsig, vaultTok, td,
    by simpa using hmk, by simpa using hmx, hvo, hvd,
    by simpa using hown, htd, hov, hs.symm, he.symm⟩

/-- Every successful Execute passed all of the handler's checks, and its
final state and effect list have this explicit form. -/
theorem take_ok_elim {a s : TakeAccounts} {effs : List Effect}
    (h : process_take_instruction a = .ok (s, effs)) :
    ∃ vt ty my tx,
      (Escrow.fromAccountInfo a.escrow).mint_x = a.mint_x.key ∧
      (Escrow.fromAccountInfo a.escrow).mint_y = a.mint_y.key ∧
      a.vault.owner = tokenProgramId ∧ a.vault.data = .token vt ∧
      a.escrow.key = takeEscrowAddress a.maker.key (Escrow.fromAccountInfo a.escrow).bump ∧
      a.taker_ata_y.data = .token ty ∧ ty.owner = a.taker.key ∧
      (Escrow.fromAccountInfo a.escrow).amount ≤ ty.amount ∧
      a.maker_ata_y.data = .token my ∧
      my.amount + (Escrow.fromAccountInfo a.escrow).amount < U64LIMIT ∧
      a.taker_ata_x.data = .token tx ∧ vt.owner = a.escrow.key ∧
      tx.amount + vt.amount < U64LIMIT ∧
      s = { a with
            taker_ata_y := { a.taker_ata_y with
                              data := .token { ty with
                                amount := ty.amount - (Escrow.fromAccountInfo a.escrow).amount } }
            maker_ata_y := { a.maker_ata_y with
                              data := .token { my with
                                amount := my.amount + (Escrow.fromAccountInfo a.escrow).amount } }
            taker_ata_x := { a.taker_ata_x with
                              data := .token { tx with amount := tx.amount + vt.amount } }
            vault := { a.vault with
                        data := .empty
                        lamports := 0
                        owner := systemProgramId }
            maker := { a.maker with
                        lamports := ((a.maker.lamports + a.vault.lamports) % U64LIMIT
                          + a.escrow.lamports) % U64LIMIT }
            escrow := { a.escrow with lamports := 0 } } ∧
      effs = [Effect.transferTok a.taker_ata_y.key a.maker_ata_y.key a.taker.key
                (Escrow.fromAccountInfo a.escrow).amount none,
              Effect.transferTok a.vault.key a.taker_ata_x.key a.escrow.key vt.amount
                (some (makeSignerSeeds a.maker.key (Escrow.fromAccountInfo a.escrow).bump)),
              Effect.closeTok a.vault.key a.maker.key a.escrow.key
                (makeSignerSeeds a.maker.key (Escrow.fromAccountInfo a.escrow).bump)] := by
  unfold process_take_instruction at h
  simp only [ne_eq] at h
  split at h
  case isTrue => exact absurd h (by simp)
  case isFalse hmx =>
  split at h
  case isTrue => exact absurd h (by simp)
  case isFalse hmy =>
  split at h
  case h_1 err heq => exact absurd h (by simp)
  case h_2 vaultTok heq =>
  split at h
  case isTrue => exact absurd h (by simp)
  case isFalse hkey =>
  split at h
  case h_1 e1 htr1 => exact absurd h (by simp)
  case h_2 p1 tay1 may1 htr1 =>
  split at h
  case h_1 e2 htr2 => exact absurd h (by simp)
  case h_2 p2 vault1 tax1 htr2 =>
  split at h
  case h_1 e3 hcl => exact absurd h (by simp)
  case h_2 p3 vault2 maker1 hcl =>
  obtain ⟨hvo, hvd⟩ := tokenAccountFromInfo_ok_elim heq
  obtain ⟨ty, my, hty, hmy2, htyo, htyle, hmyov, hr1⟩ := tokenTransfer_ok_elim htr1
  rw [Prod.mk.injEq] at hr1
  obtain ⟨rfl, rfl⟩ := hr1
  obtain ⟨ts, tx, hts, htx, htso, htsle, htxov, hr2⟩ := tokenTransfer_ok_elim htr2
  rw [hvd] at hts
  obtain rfl : vaultTok = ts := by injection hts
  rw [Prod.mk.injEq] at hr2
  obtain ⟨rfl, rfl⟩ := hr2
  obtain ⟨t2, ht2, hauth2, hz2, hr3⟩ := tokenCloseAccount_ok_elim hcl
  rw [Prod.mk.injEq] at hr3
  obtain ⟨rfl, rfl⟩ := hr3
  rw [Except.ok.injEq, Prod.mk.injEq] at h
  obtain ⟨hs, he⟩ := h
  exact ⟨vaultTok, ty, my, tx,
    by simpa using hmx, by simpa using hmy, hvo, hvd,
    by simpa using hkey, hty, htyo, htyle, hmy2, hmyov, htx, htso,
    htxov, hs.symm, he.symm⟩

theorem tokenAccountFromInfoUnchecked_some_elim {a : AccountInfo} {t : TokenAccountState}
    (h : tokenAccountFromInfoUnchecked a = some t) : a.data = .token t := by
  unfold tokenAccountFromInfoUnchecked at h
  split at h <;> simp_all

/-- Every successful Create on a fresh slot (empty data, owner not yet this
program) passed all of the handler's checks, and its final state and effect
list have this explicit form. -/
theorem make_ok_create_elim {a s : MakeAccounts} {data : List Nat} {effs : List Effect}
    (h : process_make_instruction a data = .ok (s, effs))
    (hemp : a.escrow.dataIsEmpty = true)
    (hown : a.escrow.owner ≠ programId) :
    17 ≤ data.length ∧
    makeEscrowAddress a.maker.key (data.headD 0 % 256) = some a.escrow.key ∧
    a.mint_x.owner = tokenProgramId ∧ a.mint_y.owner = tokenProgramId ∧
    ∃ vt ma,
      a.vault.data = .token vt ∧ vt.owner = a.escrow.key ∧
      a.maker_ata.data = .token ma ∧ ma.owner = a.maker.key ∧
      escrowRentLamports ≤ a.maker.lamports ∧
      leU64At data 9 ≤ ma.amount ∧ vt.amount + leU64At data 9 < U64LIMIT ∧
      s = { a with
            maker := { a.maker with lamports := a.maker.lamports - escrowRentLamports }
            escrow := { a.escrow with
                        owner := programId
                        lamports := (a.escrow.lamports + escrowRentLamports) % U64LIMIT
                        data := .escrowData
                          { maker := a.maker.key
                            mint_x := a.mint_x.key
                            mint_y := a.mint_y.key
                            amount := leU64At data 1
                            bump := data.headD 0 % 256 } }
            maker_ata := { a.maker_ata with
                            data := .token { ma with amount := ma.amount - leU64At data 9 } }
            vault := { a.vault with
                        data := .token { vt with amount := vt.amount + leU64At data 9 } } } ∧
      effs = [Effect.createAcct a.maker.key a.escrow.key escrowRentLamports Escrow.SIZE
                programId (makeSignerSeeds a.maker.key (data.headD 0 % 256)),
              Effect.transferTok a.maker_ata.key a.vault.key a.maker.key
                (leU64At data 9) none] := by
  unfold process_make_instruction at h
  simp only [ne_eq] at h
  split at h
  next => exact absurd h (by simp)
  next hlen =>
  split at h
  next heq => exact absurd heq (by simp [makeEscrowAddress, createProgramAddress])
  next pda hpda =>
  split at h
  next => exact absurd h (by simp)
  next hkey =>
  split at h
  next => exact absurd h (by simp)
  next hmxo =>
  split at h
  next => exact absurd h (by simp)
  next hmyo =>
  split at h
  next hvn => exact absurd h (by simp)
  next vt hvt =>
  split at h
  next => exact absurd h (by simp)
  next hvown =>
  split at h
  next => exact absurd h (by simp)
  next hrent =>
  split at h
  next e1 htr => exact absurd h (by simp)
  next p1 ata1 vault1 htr =>
  obtain ⟨ma, vtd, hma, hvtd, hmao, hdep, hnov, hr⟩ := tokenTransfer_ok_elim htr
  have hvd : a.vault.data = .token vt := tokenAccountFromInfoUnchecked_some_elim hvt
  rw [hvd] at hvtd
  obtain rfl : vt = vtd := by injection hvtd
  rw [Prod.mk.injEq] at hr
  obtain ⟨rfl, rfl⟩ := hr
  rw [Except.ok.injEq, Prod.mk.injEq] at h
  obtain ⟨hs, he⟩ := h
  have hkey2 : pda = a.escrow.key := by simpa using hkey
  refine ⟨by omega, by rw [← hkey2]; exact hpda, by simpa using hmxo, by simpa using hmyo,
    vt, ma, hvd, by simpa using hvown, hma, hmao, by omega, hdep, hnov, hs.symm, he.symm⟩

/-- The Create handler contains no signer check: no execution path returns
`MissingRequiredSignature`. -/
theorem make_never_missing_sig (a : MakeAccounts) (data : List Nat) :
    process_make_instruction a data ≠ .error .MissingRequiredSignature := by
  unfold process_make_instruction
  simp only [ne_eq]
  intro hcon
  split at hcon
  next => exact absurd hcon (by simp)
  next hlen =>
  split at hcon
  next heq => exact absurd hcon (by simp)
  next pda hpda =>
  split at hcon
  next => exact absurd hcon (by simp)
  next hkey =>
  split at hcon
  case isFalse hq => exact absurd hcon (by simp)
  case isTrue =>
  split at hcon
  next => exact absurd hcon (by simp)
  next hmxo =>
  split at hcon
  next => exact absurd hcon (by simp)
  next hmyo =>
  split at hcon
  next => exact absurd hcon (by simp)
  next vt hvt =>
  split at hcon
  next => exact absurd hcon (by simp)
  next hvown =>
  split at hcon
  case isFalse hq => exact absurd hcon (by simp)
  case isTrue =>
  split at hcon
  next => exact absurd hcon (by simp)
  next hrent =>
  split at hcon
  next e1 htr =>
    obtain rfl : e1 = ProgramError.MissingRequiredSignature := by injection hcon
    exact absurd htr (tokenTransfer_ne_missing_sig _ _ _ _)
  next p1 ata1 vault1 htr => exact absurd hcon (by simp)

/-- The Execute handler contains no signer check: no execution path returns
`MissingRequiredSignature`. -/
theorem take_never_missing_sig (a : TakeAccounts) :
    process_take_instruction a ≠ .error .MissingRequiredSignature := by
  unfold process_take_instruction
  simp only [ne_eq]
  intro hcon
  split at hcon
  case isTrue => exact absurd hcon (by simp)
  case isFalse =>
  split at hcon
  case isTrue => exact absurd hcon (by simp)
  case isFalse =>
  split at hcon
  case h_1 err heq =>
    obtain rfl : err = ProgramError.MissingRequiredSignature := by injection hcon
    exact absurd heq (tokenAccountFromInfo_ne_missing_sig _)
  case h_2 vt hvt =>
  split at hcon
  case isTrue => exact absurd hcon (by simp)
  case isFalse =>
  split at hcon
  case h_1 e1 htr1 =>
    obtain rfl : e1 = ProgramError.MissingRequiredSignature := by injection hcon
    exact absurd htr1 (tokenTransfer_ne_missing_sig _ _ _ _)
  case h_2 p1 tay1 may1 htr1 =>
  split at hcon
  case h_1 e2 htr2 =>
    obtain rfl : e2 = ProgramError.MissingRequiredSignature := by injection hcon
    exact absurd htr2 (tokenTransfer_ne_missing_sig _ _ _ _)
  case h_2 p2 vault1 tax1 htr2 =>
  split at hcon
  case h_1 e3 hcl =>
    obtain rfl : e3 = ProgramError.MissingRequiredSignature := by injection hcon
    exact absurd hcl (tokenCloseAccount_ne_missing_sig _ _ _)
  case h_2 p3 vault2 maker1 hcl => exact absurd hcon (by simp)

/-! ### Concrete fixtures

Small closed account states used to evaluate the handlers at concrete
inputs.  Key values: `[1]`/`[2]` maker keys, `[5]` a taker key, `[3]`/`[4]`/
`[5]`/`[6]` mint keys, two-digit keys for token accounts. -/

def mkEscKey : Pubkey := (makeEscrowAddress [1] 5).getD []

/-- A Create payload: bump 5, Y amount 50, X deposit 100 (little-endian). -/
def mkPayload : List Nat := [5, 50, 0, 0, 0, 0, 0, 0, 0, 100, 0, 0, 0, 0, 0, 0, 0]

/-- A fresh Create call: empty escrow slot at the derived address for
(maker `[1]`, bump 5), vault authority already set to that address. -/
def mkFresh : MakeAccounts :=
  { maker := { key := [1], is_signer := true, owner := systemProgramId,
               lamports := 10000000, data := .empty }
    mint_x := { key := [3], is_signer := false, owner := tokenProgramId,
                lamports := 1, data := .raw [0] }
    mint_y := { key := [4], is_signer := false, owner := tokenProgramId,
                lamports := 1, data := .raw [0] }
    maker_ata := { key := [10], is_signer := false, owner := tokenProgramId,
                   lamports := 5, data := .token { amount := 500, owner := [1] } }
    vault := { key := [11], is_signer := false, owner := tokenProgramId,
               lamports := 5, data := .token { amount := 0, owner := mkEscKey } }
    escrow := { key := mkEscKey, is_signer := false, owner := systemProgramId,
                lamports := 0, data := .empty } }

/-- The state after `mkFresh`'s Create commits: rent debited from the maker
into the now program-owned escrow account, the record populated (Y amount
50, bump 5), and 100 X moved from the maker's token account into the
vault. -/
def mkFreshOut : MakeAccounts :=
  { maker := { key := [1], is_signer := true, owner := systemProgramId,
               lamports := 7960720, data := .empty }
    mint_x := mkFresh.mint_x
    mint_y := mkFresh.mint_y
    maker_ata := { key := [10], is_signer := false, owner := tokenProgramId,
                   lamports := 5, data := .token { amount := 400, owner := [1] } }
    vault := { key := [11], is_signer := false, owner := tokenProgramId,
               lamports := 5, data := .token { amount := 100, owner := mkEscKey } }
    escrow := { key := mkEscKey, is_signer := false, owner := programId,
                lamports := 2039280,
                data := .escrowData
                  { maker := [1], mint_x := [3], mint_y := [4], amount := 50, bump := 5 } } }

/-- The invocations `mkFresh`'s Create issues. -/
def mkFreshEffs : List Effect :=
  [.createAcct [1] mkEscKey 2039280 105 programId (makeSignerSeeds [1] 5),
   .transferTok [10] [11] [1] 100 none]

/-- The same Create call against a slot whose data is already non-empty but
whose owner is not this program. -/
def mkBusy : MakeAccounts :=
  { mkFresh with escrow := { mkFresh.escrow with data := .raw [9, 9] } }

/-- The same Create call against an empty slot already owned by this
program. -/
def mkAlready : MakeAccounts :=
  { mkFresh with escrow := { mkFresh.escrow with owner := programId } }

/-- The non-empty-slot Create call with the maker's signature absent. -/
def mkBusyNoSig : MakeAccounts :=
  { mkBusy with maker := { mkBusy.maker with is_signer := false } }

/-- A Cancel call that passes every check: maker `[1]` signs, the record
stores maker `[1]` / mint_x `[3]` / bump 7, and the vault (100 tokens,
200 lamports) is owned by the escrow account `[20]`. -/
def rfA : RefundAccounts :=
  { maker := { key := [1], is_signer := true, owner := systemProgramId,
               lamports := 5000, data := .empty }
    mint_a := { key := [3], is_signer := false, owner := tokenProgramId,
                lamports := 1, data := .raw [0] }
    maker_ata_a := { key := [10], is_signer := false, owner := tokenProgramId,
                     lamports := 5, data := .token { amount := 0, owner := [1] } }
    escrow := { key := [20], is_signer := false, owner := programId, lamports := 100,
                data := .escrowData
                  { maker := [1], mint_x := [3], mint_y := [4], amount := 50, bump := 7 } }
    vault := { key := [21], is_signer := false, owner := tokenProgramId,
               lamports := 200, data := .token { amount := 100, owner := [20] } } }

/-- The state after `rfA`'s Cancel commits: 100 tokens and 300 lamports of
reserve moved to the maker side, the vault deleted by the token program's
close (zero data, reassigned to the system program), escrow lamports zeroed,
escrow data untouched. -/
def rfAOut : RefundAccounts :=
  { maker := { key := [1], is_signer := true, owner := systemProgramId,
               lamports := 5300, data := .empty }
    mint_a := rfA.mint_a
    maker_ata_a := { key := [10], is_signer := false, owner := tokenProgramId,
                     lamports := 5, data := .token { amount := 100, owner := [1] } }
    escrow := { key := [20], is_signer := false, owner := programId, lamports := 0,
                data := .escrowData
                  { maker := [1], mint_x := [3], mint_y := [4], amount := 50, bump := 7 } }
    vault := { key := [21], is_signer := false, owner := systemProgramId,
               lamports := 0, data := .empty } }

/-- The invocations `rfA`'s Cancel issues. -/
def rfAEffs : List Effect :=
  [.transferTok [21] [10] [20] 100 (some (makeSignerSeeds [1] 7)),
   .closeTok [21] [1] [20] (makeSignerSeeds [1] 7)]

/-- The Cancel call `rfA` with the maker's signature absent. -/
def rfNoSig : RefundAccounts :=
  { rfA with maker := { rfA.maker with is_signer := false } }

def tkEscKey : Pubkey := takeEscrowAddress [2] 7

/-- An Execute call that passes every check of the Take handler: the record
stores mints `[3]`/`[4]`, amount 50, bump 7 for maker `[2]`; the escrow
account sits at the address `find_program_address` yields; the taker `[5]`
holds 60 Y; the vault holds 100 X and 200 lamports. -/
def tkA : TakeAccounts :=
  { taker := { key := [5], is_signer := true, owner := systemProgramId,
               lamports := 900, data := .empty }
    maker := { key := [2], is_signer := false, owner := systemProgramId,
               lamports := 800, data := .empty }
    mint_x := { key := [3], is_signer := false, owner := tokenProgramId,
                lamports := 1, data := .raw [0] }
    mint_y := { key := [4], is_signer := false, owner := tokenProgramId,
                lamports := 1, data := .raw [0] }
    taker_ata_x := { key := [30], is_signer := false, owner := tokenProgramId,
                     lamports := 5, data := .token { amount := 0, owner := [5] } }
    taker_ata_y := { key := [31], is_signer := false, owner := tokenProgramId,
                     lamports := 5, data := .token { amount := 60, owner := [5] } }
    maker_ata_y := { key := [32], is_signer := false, owner := tokenProgramId,
                     lamports := 5, data := .token { amount := 0, owner := [2] } }
    vault := { key := [33], is_signer := false, owner := tokenProgramId,
               lamports := 200, data := .token { amount := 100, owner := tkEscKey } }
    escrow := { key := tkEscKey, is_signer := false, owner := programId, lamports := 100,
                data := .escrowData
                  { maker := [2], mint_x := [3], mint_y := [4], amount := 50, bump := 7 } } }

/-- The state after `tkA`'s Execute commits: 50 Y taker → maker, 100 X
vault → taker, 300 lamports of reserve to the maker, the vault deleted by
the token program's close, escrow data untouched. -/
def tkAOut : TakeAccounts :=
  { taker := tkA.taker
    maker := { key := [2], is_signer := false, owner := systemProgramId,
               lamports := 1100, data := .empty }
    mint_x := tkA.mint_x
    mint_y := tkA.mint_y
    taker_ata_x := { key := [30], is_signer := false, owner := tokenProgramId,
                     lamports := 5, data := .token { amount := 100, owner := [5] } }
    taker_ata_y := { key := [31], is_signer := false, owner := tokenProgramId,
                     lamports := 5, data := .token { amount := 10, owner := [5] } }
    maker_ata_y := { key := [32], is_signer := false, owner := tokenProgramId,
                     lamports := 5, data := .token { amount := 50, owner := [2] } }
    vault := { key := [33], is_signer := false, owner := systemProgramId,
               lamports := 0, data := .empty }
    escrow := { key := tkEscKey, is_signer := false, owner := programId, lamports := 0,
                data := .escrowData
                  { maker := [2], mint_x := [3], mint_y := [4], amount := 50, bump := 7 } } }

/-- The invocations `tkA`'s Execute issues. -/
def tkAEffs : List Effect :=
  [.transferTok [31] [32] [5] 50 none,
   .transferTok [33] [30] tkEscKey 100 (some (makeSignerSeeds [2] 7)),
   .closeTok [33] [2] tkEscKey (makeSignerSeeds [2] 7)]

/-- A Cancel call whose escrow account's address `[99, 99]` is NOT the
address derived from ("escrow", maker `[2]`, bump 3), while every check the
handler actually performs is satisfied. -/
def c10ex : RefundAccounts :=
  { maker := { key := [2], is_signer := true, owner := systemProgramId,
               lamports := 1000, data := .empty }
    mint_a := { key := [5], is_signer := false, owner := tokenProgramId,
                lamports := 1, data := .raw [0] }
    maker_ata_a := { key := [31], is_signer := false, owner := tokenProgramId,
                     lamports := 5, data := .token { amount := 0, owner := [2] } }
    escrow := { key := [99, 99], is_signer := false, owner := programId, lamports := 10,
                data := .escrowData
                  { maker := [2], mint_x := [5], mint_y := [6], amount := 77, bump := 3 } }
    vault := { key := [30], is_signer := false, owner := tokenProgramId,
               lamports := 40, data := .token { amount := 123, owner := [99, 99] } } }

/-- The state after `c10ex`'s Cancel commits: the 123 tokens and all reserve
moved to the maker side despite the mismatched escrow address. -/
def c10exOut : RefundAccounts :=
  { maker := { key := [2], is_signer := true, owner := systemProgramId,
               lamports := 1050, data := .empty }
    mint_a := c10ex.mint_a
    maker_ata_a := { key := [31], is_signer := false, owner := tokenProgramId,
                     lamports := 5, data := .token { amount := 123, owner := [2] } }
    escrow := { key := [99, 99], is_signer := false, owner := programId, lamports := 0,
                data := .escrowData
                  { maker := [2], mint_x := [5], mint_y := [6], amount := 77, bump := 3 } }
    vault := { key := [30], is_signer := false, owner := systemProgramId,
               lamports := 0, data := .empty } }

/-- The invocations `c10ex`'s Cancel issues. -/
def c10exEffs : List Effect :=
  [.transferTok [30] [31] [99, 99] 123 (some (makeSignerSeeds [2] 3)),
   .closeTok [30] [2] [99, 99] (makeSignerSeeds [2] 3)]

/-! ### Claims -/

/-- C1.  The claim says the entry point routes tag 0/1/2 to the Create /
Execute / Cancel handlers and rejects any other tag with an
invalid-instruction-data error.  In the code, `EscrowInstructions::try_from`
does map 0/1/2 and reject the rest, but `process_instruction` never calls
it: it splits off the tag byte (rejecting only an empty payload) and returns
`Ok(())` for every non-empty payload, invoking no handler.  This theorem
evaluates the entry point at the failing inputs: tag 3 is accepted with
success instead of being rejected, and tag 0 likewise returns success
without any dispatch (the embedded entry point's result type carries no
effect at all). -/
theorem c1_entry_point_ignores_tag :
    process_instruction [] = .error .InvalidInstructionData ∧
    EscrowInstructions.tryFrom 0 = .ok .Make ∧
    EscrowInstructions.tryFrom 1 = .ok .Take ∧
    EscrowInstructions.tryFrom 2 = .ok .Refund ∧
    EscrowInstructions.tryFrom 3 = .error .InvalidInstructionData ∧
    process_instruction [3] = .ok () ∧
    process_instruction [0, 1, 2] = .ok () := by
  exact ⟨rfl, rfl, rfl, rfl, rfl, rfl, rfl⟩

/-- C2.  The claim says the escrow address Execute recomputes equals the
address Create derives from ("escrow", maker, bump).  In the code, Create
uses `checked_create_program_address(["escrow", maker, [bump]])` while
Execute uses `find_program_address(["escrow", maker, [record.bump]]).0`,
which appends its own bump-search byte to those seeds before deriving, so
the two handlers derive different addresses for every (maker, bump) pair:
no escrow created by Make can pass Take's address assertion. -/
theorem c2_make_take_derived_addresses_differ :
    ∀ (maker : Pubkey) (bump : Nat),
      makeEscrowAddress maker bump ≠ some (takeEscrowAddress maker bump) := by
  intro maker bump hcon
  have h1 : makeEscrowAddress maker bump =
      some (programId ++ [256] ++
        (escrowSeedLit ++ [256] ++ (maker ++ [256] ++ ([bump] ++ [256] ++ [])))) := rfl
  have h2 : takeEscrowAddress maker bump =
      programId ++ [256] ++
        (escrowSeedLit ++ [256] ++ (maker ++ [256] ++
          ([bump] ++ [256] ++ ([255] ++ [256] ++ [])))) := rfl
  rw [h1, h2, Option.some.injEq] at hcon
  have hlen := congrArg List.length hcon
  simp [escrowSeedLit, programId] at hlen

/-- C3, counterexample.  The claim says Create fails with an
already-initialized error when the escrow slot's data is non-empty but the
slot is not owned by this program.  At this concrete input the slot's data
is non-empty (`raw [9, 9]`) and its owner is the system program, yet Create
returns success with no state change and no effect: the code's
`data_is_empty` guard skips the whole block, and its already-initialized
error instead sits on the empty-data, already-program-owned path. -/
theorem c3_counterexample_nonempty_foreign_slot_succeeds :
    process_make_instruction mkBusy mkPayload = .ok (mkBusy, []) ∧
    mkBusy.escrow.dataIsEmpty = false ∧
    mkBusy.escrow.owner = systemProgramId ∧
    ¬ systemProgramId = programId := by
  exact ⟨rfl, rfl, rfl, by decide⟩

/-- C3, amended: when the escrow slot's data is non-empty, Create returns
success with no mutation and no effect regardless of the slot's owner (so a
second Create against an Active record neither debits the maker nor
re-allocates anything); the already-initialized error is returned instead
when the slot's data is empty but the slot is already owned by this
program. -/
theorem c3_amended_create_reentry :
    (∀ (a : MakeAccounts) (data : List Nat),
        ¬ data.length < 17 →
        makeEscrowAddress a.maker.key (data.headD 0 % 256) = some a.escrow.key →
        a.escrow.dataIsEmpty = false →
        process_make_instruction a data = .ok (a, []))
  ∧ (∀ (a : MakeAccounts) (data : List Nat) (vt : TokenAccountState),
        ¬ data.length < 17 →
        makeEscrowAddress a.maker.key (data.headD 0 % 256) = some a.escrow.key →
        a.escrow.dataIsEmpty = true →
        a.mint_x.owner = tokenProgramId →
        a.mint_y.owner = tokenProgramId →
        a.vault.data = .token vt →
        vt.owner = a.escrow.key →
        a.escrow.owner = programId →
        process_make_instruction a data = .error .AccountAlreadyInitialized) := by
  constructor
  · intro a data hlen hpda hemp
    rw [List.headD_eq_head?] at hpda
    simp [process_make_instruction, hlen, hpda, hemp]
  · intro a data vt hlen hpda hemp hmx hmy hvt hvo hown
    rw [List.headD_eq_head?] at hpda
    simp [process_make_instruction, hlen, hpda, hemp, hmx, hmy,
      tokenAccountFromInfoUnchecked, hvt, hvo, hown]

/-- C3, witness: the amended theorem applied at the concrete inputs
`mkBusy` (non-empty slot: silent success) and `mkAlready` (empty slot
already owned by this program: already-initialized error). -/
theorem c3_amended_create_reentry_witness :
    process_make_instruction mkBusy mkPayload = .ok (mkBusy, []) ∧
    process_make_instruction mkAlready mkPayload = .error .AccountAlreadyInitialized := by
  exact ⟨c3_amended_create_reentry.1 mkBusy mkPayload (by decide) (by decide) (by decide),
    c3_amended_create_reentry.2 mkAlready mkPayload { amount := 0, owner := mkEscKey }
      (by decide) (by decide) (by decide) (by decide) (by decide) (by decide)
      (by decide) (by decide)⟩

/-- C4, counterexample.  The claim says Create fails with
missing-required-signature whenever the supplied maker account is not a
signer.  At this concrete input the maker is not a signer, yet Create
returns success: neither Create nor Execute contains any signer check (only
Cancel does). -/
theorem c4_counterexample_create_without_signature_succeeds :
    mkBusyNoSig.maker.is_signer = false ∧
    process_make_instruction mkBusyNoSig mkPayload = .ok (mkBusyNoSig, []) := by
  exact ⟨rfl, rfl⟩

/-- C4, amended: only Cancel performs a signer check, failing with
missing-required-signature before anything else whenever the maker is not a
signer; Create and Execute contain no signer check at all and no execution
path of theirs produces that error (the maker's / taker's signatures are
enforced only downstream, by the invoked system- and token-program
primitives). -/
theorem c4_amended_signature_checks :
    (∀ a : RefundAccounts, a.maker.is_signer = false →
        process_refund_instruction a = .error .MissingRequiredSignature)
  ∧ (∀ (a : MakeAccounts) (data : List Nat),
        process_make_instruction a data ≠ .error .MissingRequiredSignature)
  ∧ (∀ a : TakeAccounts,
        process_take_instruction a ≠ .error .MissingRequiredSignature) := by
  refine ⟨?_, make_never_missing_sig, take_never_missing_sig⟩
  intro a hsig
  simp [process_refund_instruction, hsig]

/-- C4, witness: the amended theorem applied at concrete inputs — the
unsigned Cancel `rfNoSig` is rejected with missing-required-signature, while
Create at `mkBusyNoSig` and Execute at `tkA` can never produce that
error. -/
theorem c4_amended_signature_checks_witness :
    process_refund_instruction rfNoSig = .error .MissingRequiredSignature ∧
    process_make_instruction mkBusyNoSig mkPayload ≠ .error .MissingRequiredSignature ∧
    process_take_instruction tkA ≠ .error .MissingRequiredSignature := by
  exact ⟨c4_amended_signature_checks.1 rfNoSig (by decide),
    c4_amended_signature_checks.2.1 mkBusyNoSig mkPayload,
    c4_amended_signature_checks.2.2 tkA⟩

/-- C5.  In every successful Execute, exactly two asset transfers are
issued, in this order: first `record.amount` of Y from the taker's Y account
to the maker's Y account with the taker as authority (no PDA seeds), then
the vault's entire pre-Execute balance (read before leg 1) from the vault to
the taker's X account with the escrow account as authority, signed with the
derived-address seed tuple. -/
theorem c5_execute_two_transfers :
    ∀ (a s : TakeAccounts) (effs : List Effect) (vt : TokenAccountState),
      process_take_instruction a = .ok (s, effs) →
      tokenAccountFromInfo a.vault = .ok vt →
      transfersOf effs =
        [Effect.transferTok a.taker_ata_y.key a.maker_ata_y.key a.taker.key
            (Escrow.fromAccountInfo a.escrow).amount none,
         Effect.transferTok a.vault.key a.taker_ata_x.key a.escrow.key vt.amount
            (some (makeSignerSeeds a.maker.key (Escrow.fromAccountInfo a.escrow).bump))] := by
  intro a s effs vt h hvt
  obtain ⟨vt0, ty, my, tx, hmx, hmy, hvo, hvd, hkey, hty, htyo, htyle, hmyd, hmyov,
    htx, hvto, htxov, hs, he⟩ := take_ok_elim h
  obtain ⟨hvo2, hvd2⟩ := tokenAccountFromInfo_ok_elim hvt
  rw [hvd] at hvd2
  obtain rfl : vt0 = vt := by injection hvd2
  subst he
  simp [transfersOf, Effect.isTransfer]

/-- C5, witness: the theorem applied at the concrete successful Execute
`tkA`: leg 1 moves the recorded 50 Y taker → maker, leg 2 moves the vault's
entire pre-Execute balance of 100 X vault → taker under the PDA seeds. -/
theorem c5_execute_two_transfers_witness :
    transfersOf tkAEffs =
      [Effect.transferTok [31] [32] [5] 50 none,
       Effect.transferTok [33] [30] tkEscKey 100 (some (makeSignerSeeds [2] 7))] :=
  c5_execute_two_transfers tkA tkAOut tkAEffs { amount := 100, owner := tkEscKey }
    (by decide) (by decide)

/-- C6, counterexample.  The claim says the escrow record's data is zeroed
on close, leaving zero data.  At this concrete successful Cancel the
escrow's lamports are swept to the maker and zeroed, but its data is left
fully intact (the complete record is still readable): no handler zeroes any
account data. -/
theorem c6_counterexample_escrow_data_not_zeroed :
    process_refund_instruction rfA = .ok (rfAOut, rfAEffs) ∧
    rfAOut.escrow.lamports = 0 ∧
    rfAOut.escrow.data = .escrowData
      { maker := [1], mint_x := [3], mint_y := [4], amount := 50, bump := 7 } ∧
    ¬ rfAOut.escrow.data = .empty := by
  exact ⟨rfl, rfl, rfl, by decide⟩

/-- C6, amended: after every successful Execute or Cancel the vault is
closed through the token program with its whole reserve sent to the maker,
and the escrow's whole reserve is added to the maker's lamports (64-bit
wrapping) with the escrow's lamports set to zero — but neither account's
data is zeroed by the handler; in particular the escrow record's data is
unchanged. -/
theorem c6_amended_close_semantics :
    (∀ (a s : RefundAccounts) (effs : List Effect),
        process_refund_instruction a = .ok (s, effs) →
        s.vault.lamports = 0 ∧ s.escrow.lamports = 0 ∧
        s.maker.lamports =
          ((a.maker.lamports + a.vault.lamports) % U64LIMIT
            + a.escrow.lamports) % U64LIMIT ∧
        s.escrow.data = a.escrow.data ∧
        Effect.closeTok a.vault.key a.maker.key a.escrow.key
          (makeSignerSeeds a.maker.key (Escrow.fromAccountInfo a.escrow).bump) ∈ effs)
  ∧ (∀ (a s : TakeAccounts) (effs : List Effect),
        process_take_instruction a = .ok (s, effs) →
        s.vault.lamports = 0 ∧ s.escrow.lamports = 0 ∧
        s.maker.lamports =
          ((a.maker.lamports + a.vault.lamports) % U64LIMIT
            + a.escrow.lamports) % U64LIMIT ∧
        s.escrow.data = a.escrow.data ∧
        Effect.closeTok a.vault.key a.maker.key a.escrow.key
          (makeSignerSeeds a.maker.key (Escrow.fromAccountInfo a.escrow).bump) ∈ effs) := by
  constructor
  · intro a s effs h
    obtain ⟨hsig, vt, d, hmk, hmx, hvo, hvd, hvown, htd, hov, hs, he⟩ := refund_ok_elim h
    subst hs
    subst he
    exact ⟨rfl, rfl, rfl, rfl, by simp⟩
  · intro a s effs h
    obtain ⟨vt0, ty, my, tx, hmx, hmy, hvo, hvd, hkey, hty, htyo, htyle, hmyd, hmyov,
      htx, hvto, htxov, hs, he⟩ := take_ok_elim h
    subst hs
    subst he
    exact ⟨rfl, rfl, rfl, rfl, by simp⟩

/-- C6, witness: the amended theorem applied at the concrete successful
Cancel `rfA` and Execute `tkA`. -/
theorem c6_amended_close_semantics_witness :
    (rfAOut.vault.lamports = 0 ∧ rfAOut.escrow.lamports = 0 ∧
      rfAOut.maker.lamports =
        ((rfA.maker.lamports + rfA.vault.lamports) % U64LIMIT
          + rfA.escrow.lamports) % U64LIMIT ∧
      rfAOut.escrow.data = rfA.escrow.data ∧
      Effect.closeTok rfA.vault.key rfA.maker.key rfA.escrow.key
        (makeSignerSeeds rfA.maker.key (Escrow.fromAccountInfo rfA.escrow).bump) ∈ rfAEffs)
  ∧ (tkAOut.vault.lamports = 0 ∧ tkAOut.escrow.lamports = 0 ∧
      tkAOut.maker.lamports =
        ((tkA.maker.lamports + tkA.vault.lamports) % U64LIMIT
          + tkA.escrow.lamports) % U64LIMIT ∧
      tkAOut.escrow.data = tkA.escrow.data ∧
      Effect.closeTok tkA.vault.key tkA.maker.key tkA.escrow.key
        (makeSignerSeeds tkA.maker.key (Escrow.fromAccountInfo tkA.escrow).bump) ∈ tkAEffs) := by
  exact ⟨c6_amended_close_semantics.1 rfA rfAOut rfAEffs (by decide),
    c6_amended_close_semantics.2 tkA tkAOut tkAEffs (by decide)⟩

/-- C7.  Cancel fails with missing-required-signature when the maker is not
a signer; with the maker signing, a stored-maker mismatch, a mint mismatch
or a vault-authority mismatch each abort (the source's `assert_eq!` panics)
before any invocation is issued; and every success implies the maker signed,
the stored maker and mint matched, the vault's authority equalled the escrow
account's address, and exactly one asset transfer was issued — the vault's
entire pre-Cancel balance to the maker's destination token account. -/
theorem c7_cancel_authorization :
    ∀ a : RefundAccounts,
      (a.maker.is_signer = false →
        process_refund_instruction a = .error .MissingRequiredSignature)
    ∧ (a.maker.is_signer = true →
        (Escrow.fromAccountInfo a.escrow).maker ≠ a.maker.key →
        process_refund_instruction a = .error .AssertionViolation)
    ∧ (a.maker.is_signer = true →
        (Escrow.fromAccountInfo a.escrow).maker = a.maker.key →
        (Escrow.fromAccountInfo a.escrow).mint_x ≠ a.mint_a.key →
        process_refund_instruction a = .error .AssertionViolation)
    ∧ (∀ vt : TokenAccountState, a.maker.is_signer = true →
        (Escrow.fromAccountInfo a.escrow).maker = a.maker.key →
        (Escrow.fromAccountInfo a.escrow).mint_x = a.mint_a.key →
        tokenAccountFromInfo a.vault = .ok vt →
        vt.owner ≠ a.escrow.key →
        process_refund_instruction a = .error .AssertionViolation)
    ∧ (∀ (s : RefundAccounts) (effs : List Effect) (vt : TokenAccountState),
        process_refund_instruction a = .ok (s, effs) →
        tokenAccountFromInfo a.vault = .ok vt →
        a.maker.is_signer = true ∧
        (Escrow.fromAccountInfo a.escrow).maker = a.maker.key ∧
        (Escrow.fromAccountInfo a.escrow).mint_x = a.mint_a.key ∧
        vt.owner = a.escrow.key ∧
        transfersOf effs =
          [Effect.transferTok a.vault.key a.maker_ata_a.key a.escrow.key vt.amount
            (some (makeSignerSeeds a.maker.key (Escrow.fromAccountInfo a.escrow).bump))]) := by
  intro a
  refine ⟨?_, ?_, ?_, ?_, ?_⟩
  · intro hsig
    simp [process_refund_instruction, hsig]
  · intro hsig hmk
    simp [process_refund_instruction, hsig, hmk]
  · intro hsig hmk hmx
    simp [process_refund_instruction, hsig, hmk, hmx]
  · intro vt hsig hmk hmx hvt hvo
    simp [process_refund_instruction, hsig, hmk, hmx, hvt, hvo]
  · intro s effs vt h hvt
    obtain ⟨hsig, vt0, d, hmk, hmx, hvo, hvd, hvown, htd, hov, hs, he⟩ := refund_ok_elim h
    obtain ⟨hvo2, hvd2⟩ := tokenAccountFromInfo_ok_elim hvt
    rw [hvd] at hvd2
    obtain rfl : vt0 = vt := by injection hvd2
    subst he
    exact ⟨hsig, hmk, hmx, hvown, by simp [transfersOf, Effect.isTransfer]⟩

/-- C7, witness: the theorem applied at the concrete inputs `rfA` (a
successful Cancel: all checks held and the single transfer moved the
vault's full 100-token balance to the maker's account) and `rfNoSig` (the
unsigned Cancel is rejected). -/
theorem c7_cancel_authorization_witness :
    (rfA.maker.is_signer = true ∧
      (Escrow.fromAccountInfo rfA.escrow).maker = rfA.maker.key ∧
      (Escrow.fromAccountInfo rfA.escrow).mint_x = rfA.mint_a.key ∧
      TokenAccountState.owner { amount := 100, owner := [20] } = rfA.escrow.key ∧
      transfersOf rfAEffs =
        [Effect.transferTok rfA.vault.key rfA.maker_ata_a.key rfA.escrow.key 100
          (some (makeSignerSeeds rfA.maker.key (Escrow.fromAccountInfo rfA.escrow).bump))]) ∧
    process_refund_instruction rfNoSig = .error .MissingRequiredSignature := by
  exact ⟨(c7_cancel_authorization rfA).2.2.2.2 rfAOut rfAEffs
      { amount := 100, owner := [20] } (by decide) (by decide),
    (c7_cancel_authorization rfNoSig).1 (by decide)⟩

/-- C8.  Any Create payload shorter than 17 bytes is rejected with
invalid-instruction-data before anything else; and every successful Create
on a fresh slot stores bump = payload byte 0, amount = the little-endian
u64 of payload bytes 1..9, and the supplied maker/mint identities in the
record, and issues exactly one asset transfer, of the little-endian u64 of
payload bytes 9..17, from the maker's source account into the vault. -/
theorem c8_create_payload_decoding :
    (∀ (a : MakeAccounts) (data : List Nat), data.length < 17 →
        process_make_instruction a data = .error .InvalidInstructionData)
  ∧ (∀ (a s : MakeAccounts) (data : List Nat) (effs : List Effect),
        process_make_instruction a data = .ok (s, effs) →
        a.escrow.dataIsEmpty = true →
        a.escrow.owner ≠ programId →
        data.headD 0 < 256 →
        s.escrow.data = .escrowData
          { maker := a.maker.key
            mint_x := a.mint_x.key
            mint_y := a.mint_y.key
            amount := leU64At data 1
            bump := data.headD 0 } ∧
        transfersOf effs =
          [Effect.transferTok a.maker_ata.key a.vault.key a.maker.key
            (leU64At data 9) none]) := by
  constructor
  · intro a data hlen
    simp [process_make_instruction, hlen]
  · intro a s data effs h hemp hown hb
    obtain ⟨hlen, hpda, hmx, hmy, vt, ma, hvd, hvo, hma, hmao, hrent, hdep, hnov, hs, he⟩ :=
      make_ok_create_elim h hemp hown
    subst hs
    subst he
    rw [List.headD_eq_head?] at hb
    refine ⟨?_, by simp [transfersOf, Effect.isTransfer]⟩
    simp [Nat.mod_eq_of_lt hb]

/-- C8, witness: the theorem applied at a 3-byte payload (rejected) and at
the concrete fresh Create `mkFresh` with payload `mkPayload` (bump 5,
Y amount 50 stored, X amount 100 transferred into the vault). -/
theorem c8_create_payload_decoding_witness :
    process_make_instruction mkFresh [0, 1, 2] = .error .InvalidInstructionData ∧
    mkFreshOut.escrow.data = .escrowData
      { maker := [1], mint_x := [3], mint_y := [4]
        amount := leU64At mkPayload 1, bump := mkPayload.headD 0 } ∧
    transfersOf mkFreshEffs =
      [Effect.transferTok [10] [11] [1] (leU64At mkPayload 9) none] := by
  refine ⟨c8_create_payload_decoding.1 mkFresh [0, 1, 2] (by decide), ?_, ?_⟩
  · exact (c8_create_payload_decoding.2 mkFresh mkFreshOut mkPayload mkFreshEffs
      (by decide) (by decide) (by decide) (by decide)).1
  · exact (c8_create_payload_decoding.2 mkFresh mkFreshOut mkPayload mkFreshEffs
      (by decide) (by decide) (by decide) (by decide)).2

/-- C9.  Once an escrow has been closed by a successful Execute or Cancel,
the token program's CloseAccount has deleted the vault — zero lamports, zero
data, reassigned to the system program — so any subsequent Execute or Cancel
handed that same vault account fails: both handlers load the vault through
the checked `TokenAccount::from_account_info` (Execute does so before leg 1),
which rejects an account no longer owned by the token program, and a failed
handler aborts the enclosing transaction with no state change (an error
outcome of the embedding carries no state, matching the ledger's rollback).
The theorem quantifies over every follow-up call that supplies the closed
vault, which covers in particular a retry on the very same accounts. -/
theorem c9_closed_escrow_terminal :
    (∀ (a s1 : RefundAccounts) (e1 : List Effect),
        process_refund_instruction a = .ok (s1, e1) →
        (∀ b : RefundAccounts, b.vault = s1.vault →
          ∀ r, process_refund_instruction b ≠ .ok r) ∧
        (∀ t : TakeAccounts, t.vault = s1.vault →
          ∀ r, process_take_instruction t ≠ .ok r))
  ∧ (∀ (a s1 : TakeAccounts) (e1 : List Effect),
        process_take_instruction a = .ok (s1, e1) →
        (∀ b : RefundAccounts, b.vault = s1.vault →
          ∀ r, process_refund_instruction b ≠ .ok r) ∧
        (∀ t : TakeAccounts, t.vault = s1.vault →
          ∀ r, process_take_instruction t ≠ .ok r)) := by
  constructor
  · intro a s1 e1 h
    obtain ⟨hsig, vt, d, hmk, hmx, hvo, hvd, hvown, htd, hov, hs, he⟩ := refund_ok_elim h
    subst hs
    constructor
    · intro b hbv r h2
      rcases r with ⟨s2, e2⟩
      obtain ⟨_, vt2, d2, _, _, hvo2, _⟩ := refund_ok_elim h2
      rw [hbv] at hvo2
      simp [systemProgramId, tokenProgramId] at hvo2
    · intro t htv r h2
      rcases r with ⟨s2, e2⟩
      obtain ⟨vt2, ty2, my2, tx2, _, _, hvo2, _⟩ := take_ok_elim h2
      rw [htv] at hvo2
      simp [systemProgramId, tokenProgramId] at hvo2
  · intro a s1 e1 h
    obtain ⟨vt, ty, my, tx, hmx, hmy, hvo, hvd, hkey, hty, htyo, htyle, hmyd, hmyov,
      htx, hvto, htxov, hs, he⟩ := take_ok_elim h
    subst hs
    constructor
    · intro b hbv r h2
      rcases r with ⟨s2, e2⟩
      obtain ⟨_, vt2, d2, _, _, hvo2, _⟩ := refund_ok_elim h2
      rw [hbv] at hvo2
      simp [systemProgramId, tokenProgramId] at hvo2
    · intro t htv r h2
      rcases r with ⟨s2, e2⟩
      obtain ⟨vt2, ty2, my2, tx2, _, _, hvo2, _⟩ := take_ok_elim h2
      rw [htv] at hvo2
      simp [systemProgramId, tokenProgramId] at hvo2

/-- C9, witness: the theorem applied after the concrete successful Cancel
`rfA` and Execute `tkA`: a second Cancel on the closed state, an Execute
handed the closed vault, and a second Execute all fail (concretely, the
vault load rejects the deleted account with `InvalidAccountData`). -/
theorem c9_closed_escrow_terminal_witness :
    process_refund_instruction rfAOut ≠ .ok (rfAOut, rfAEffs) ∧
    process_take_instruction { tkA with vault := rfAOut.vault } ≠ .ok (tkA, []) ∧
    process_take_instruction tkAOut ≠ .ok (tkAOut, tkAEffs) ∧
    process_refund_instruction rfAOut = .error .InvalidAccountData := by
  refine ⟨(c9_closed_escrow_terminal.1 rfA rfAOut rfAEffs (by decide)).1 rfAOut rfl
      (rfAOut, rfAEffs),
    (c9_closed_escrow_terminal.1 rfA rfAOut rfAEffs (by decide)).2
      { tkA with vault := rfAOut.vault } rfl (tkA, []),
    (c9_closed_escrow_terminal.2 tkA tkAOut tkAEffs (by decide)).2 tkAOut rfl
      (tkAOut, tkAEffs),
    by decide⟩

/-- C10.  Cancel never compares the escrow account's address against the
address derived from ("escrow", maker, record.bump): the seed tuple is used
only as signing material for the outgoing transfer and the vault closure.
At this concrete input the escrow account's address `[99, 99]` differs from
the derived address, yet Cancel passes its maker-signature, stored-maker,
mint and vault-authority checks and moves the vault's 123 tokens to the
maker's account, supplying the seed tuple on both invocations. -/
theorem c10_cancel_skips_address_check :
    makeEscrowAddress c10ex.maker.key (Escrow.fromAccountInfo c10ex.escrow).bump
      ≠ some c10ex.escrow.key ∧
    process_refund_instruction c10ex = .ok (c10exOut, c10exEffs) ∧
    c10exOut.maker_ata_a.data = .token { amount := 123, owner := [2] } ∧
    Effect.transferTok [30] [31] [99, 99] 123
      (some (makeSignerSeeds [2] 3)) ∈ c10exEffs ∧
    Effect.closeTok [30] [2] [99, 99] (makeSignerSeeds [2] 3) ∈ c10exEffs := by
  exact ⟨by decide, rfl, rfl, by decide, by decide⟩

end PinocchioEscrow
